import Mathlib

/-
Verification development for the OctoPrint-InfluxDB plugin
(src/octoprint_influxdb/__init__.py).

The plugin's data is Python dictionaries with string keys and heterogeneous
values; we embed them as insertion-ordered association lists with unique keys
(`Dict`), and the value universe as `Val` (string / int / bool / float, the
float embedded as a rational).  All external effects (the InfluxDB client,
the settings store, the printer, monotonic time, the UTC clock) are passed
in explicitly; call outcomes of remote operations are drawn from an
`InfluxWorld` record and every operation additionally returns a trace of the
externally visible calls it made.
-/

namespace InfluxPlugin

/-- Values stored in the embedded Python dictionaries.  Python floats are
embedded as rationals. -/
inductive Val where
  | s (x : String)
  | i (x : Int)
  | b (x : Bool)
  | f (x : Rat)
deriving DecidableEq, Repr

/-- Python truthiness for `Val` (empty string, zero and `False` are falsy). -/
def Val.truthy : Val → Bool
  | .s x => decide (x ≠ "")
  | .i x => decide (x ≠ 0)
  | .b x => x
  | .f x => decide (x ≠ 0)

/-- A Python `dict` with string keys: an insertion-ordered association list.
All dictionaries built by the plugin have unique keys. -/
abbrev Dict : Type := List (String × Val)

/-- The empty dictionary. -/
def dictEmpty : Dict := []

/-- `d[k]`, as an option (first entry with key `k`). -/
def dictLookup : Dict → String → Option Val
  | [], _ => none
  | (k1, v) :: d, k => if k1 = k then some v else dictLookup d k

/-- `k in d`. -/
def dictContains (d : Dict) (k : String) : Bool := (dictLookup d k).isSome

/-- `d[k] = v`: replace the entry in place if the key is present (Python keeps
the original position), otherwise append at the end. -/
def dictSet : Dict → String → Val → Dict
  | [], k, v => [(k, v)]
  | (k1, v1) :: d, k, v =>
    if k1 = k then (k, v) :: d else (k1, v1) :: dictSet d k v

/-- `del d[k]` (removes every entry with key `k`; with unique keys this is the
single Python deletion). -/
def dictErase : Dict → String → Dict
  | [], _ => []
  | (k1, v1) :: d, k =>
    if k1 = k then dictErase d k else (k1, v1) :: dictErase d k

/-- `d.update(e)`: set every entry of `e` in order. -/
def dictUpdate (d e : Dict) : Dict := e.foldl (fun acc p => dictSet acc p.1 p.2) d

/-- `list(d.keys())`. -/
def dictKeys (d : Dict) : List String := d.map Prod.fst

/-- `d` is empty (Python falsiness of a dict). -/
def dictIsEmpty (d : Dict) : Bool := d.isEmpty

@[simp] theorem dictLookup_nil (k : String) : dictLookup [] k = none := rfl

@[simp] theorem dictLookup_cons (k1 : String) (v : Val) (d : List (String × Val)) (k : String) :
    dictLookup ((k1, v) :: d) k = if k1 = k then some v else dictLookup d k := rfl

@[simp] theorem dictLookup_dictSet_self (d : Dict) (k : String) (v : Val) :
    dictLookup (dictSet d k v) k = some v := by
  induction d with
  | nil => simp [dictSet]
  | cons p d ih =>
    obtain ⟨k1, v1⟩ := p
    by_cases h : k1 = k <;> simp [dictSet, h, ih]

theorem dictLookup_dictSet_ne (d : Dict) (k k2 : String) (v : Val) (h : k2 ≠ k) :
    dictLookup (dictSet d k v) k2 = dictLookup d k2 := by
  induction d with
  | nil => simp [dictSet, Ne.symm h]
  | cons p d ih =>
    obtain ⟨k1, v1⟩ := p
    by_cases h1 : k1 = k
    · subst h1
      simp [dictSet, Ne.symm h]
    · by_cases h2 : k1 = k2 <;> simp [dictSet, h1, h2, ih, h]

@[simp] theorem dictLookup_dictErase_self (d : Dict) (k : String) :
    dictLookup (dictErase d k) k = none := by
  induction d with
  | nil => simp [dictErase]
  | cons p d ih =>
    obtain ⟨k1, v1⟩ := p
    by_cases h : k1 = k <;> simp [dictErase, h, ih]

theorem dictLookup_dictErase_ne (d : Dict) (k k2 : String) (h : k2 ≠ k) :
    dictLookup (dictErase d k) k2 = dictLookup d k2 := by
  induction d with
  | nil => simp [dictErase]
  | cons p d ih =>
    obtain ⟨k1, v1⟩ := p
    by_cases h1 : k1 = k
    · subst h1
      simp [dictErase, Ne.symm h, ih]
    · by_cases h2 : k1 = k2 <;> simp [dictErase, h1, h2, ih, h]

@[simp] theorem dictKeys_nil : dictKeys [] = [] := rfl

@[simp] theorem dictKeys_cons (k1 : String) (v1 : Val) (d : Dict) :
    dictKeys ((k1, v1) :: d) = k1 :: dictKeys d := rfl

theorem dictLookup_eq_none_iff (d : Dict) (k : String) :
    dictLookup d k = none ↔ k ∉ dictKeys d := by
  induction d with
  | nil => simp
  | cons p d ih =>
    obtain ⟨k1, v1⟩ := p
    by_cases h : k1 = k
    · subst h
      simp
    · simp [h, ih, Ne.symm h]

theorem mem_dictKeys_of_lookup (d : Dict) (k : String) (v : Val)
    (h : dictLookup d k = some v) : k ∈ dictKeys d := by
  by_contra hk
  rw [← dictLookup_eq_none_iff] at hk
  rw [h] at hk
  exact Option.noConfusion hk

theorem mem_dictKeys_dictErase (d : Dict) (k k2 : String)
    (h : k2 ∈ dictKeys (dictErase d k)) : k2 ∈ dictKeys d := by
  induction d with
  | nil => simp [dictErase] at h
  | cons p d ih =>
    obtain ⟨k1, v1⟩ := p
    by_cases h1 : k1 = k
    · have he : dictErase ((k1, v1) :: d) k = dictErase d k := by simp [dictErase, h1]
      rw [he] at h
      exact List.mem_cons_of_mem _ (ih h)
    · have he : dictErase ((k1, v1) :: d) k = (k1, v1) :: dictErase d k := by
        simp [dictErase, h1]
      rw [he, dictKeys_cons] at h
      rw [dictKeys_cons]
      rcases List.mem_cons.mp h with h2 | h2
      · exact List.mem_cons.mpr (Or.inl h2)
      · exact List.mem_cons.mpr (Or.inr (ih h2))

@[simp] theorem dictKeys_dictErase_self (d : Dict) (k : String) :
    k ∉ dictKeys (dictErase d k) := by
  intro h
  have := (dictLookup_eq_none_iff (dictErase d k) k).mp (dictLookup_dictErase_self d k)
  exact this h

theorem dictLookup_dictUpdate_not_mem (e d : Dict) (k : String)
    (h : k ∉ dictKeys e) : dictLookup (dictUpdate d e) k = dictLookup d k := by
  induction e generalizing d with
  | nil => rfl
  | cons p e ih =>
    obtain ⟨k1, v1⟩ := p
    rw [dictKeys_cons] at h
    have h1 : k ≠ k1 := fun hh => h (List.mem_cons.mpr (Or.inl hh))
    have h2 : k ∉ dictKeys e := fun hh => h (List.mem_cons.mpr (Or.inr hh))
    show dictLookup (dictUpdate (dictSet d k1 v1) e) k = dictLookup d k
    rw [ih (dictSet d k1 v1) h2, dictLookup_dictSet_ne d k1 k v1 h1]

theorem dictLookup_dictUpdate_of_nodup (e d : Dict) (k : String) (v : Val)
    (hnd : (dictKeys e).Nodup) (h : dictLookup e k = some v) :
    dictLookup (dictUpdate d e) k = some v := by
  induction e generalizing d with
  | nil => simp at h
  | cons p e ih =>
    obtain ⟨k1, v1⟩ := p
    rw [dictKeys_cons, List.nodup_cons] at hnd
    show dictLookup (dictUpdate (dictSet d k1 v1) e) k = some v
    by_cases h1 : k1 = k
    · subst h1
      have hv : v1 = v := by simpa using h
      subst hv
      rw [dictLookup_dictUpdate_not_mem e (dictSet d k1 v1) k1 hnd.1]
      exact dictLookup_dictSet_self d k1 v1
    · have h2 : dictLookup e k = some v := by simpa [h1] using h
      exact ih (dictSet d k1 v1) hnd.2 h2

/- Sorting by key, modelling the `sorted(kwargs_safe.items())` call in the
connection log line (keys are unique, so key order determines item order). -/

/-- Insert one entry into a key-sorted association list. -/
def insertSorted (p : String × Val) : Dict → Dict
  | [] => [p]
  | q :: d => if p.1 ≤ q.1 then p :: q :: d else q :: insertSorted p d

/-- Sort a dictionary by key (insertion sort). -/
def dictSortByKey (d : Dict) : Dict := d.foldr insertSorted []

theorem insertSorted_perm (p : String × Val) (d : Dict) :
    List.Perm (insertSorted p d) (p :: d) := by
  induction d with
  | nil => rfl
  | cons q d ih =>
    by_cases h : p.1 ≤ q.1
    · simp [insertSorted, h]
    · simp only [insertSorted, h, if_false]
      exact List.Perm.trans (List.Perm.cons q ih) (List.Perm.swap p q d)

theorem dictSortByKey_perm (d : Dict) : List.Perm (dictSortByKey d) d := by
  induction d with
  | nil => rfl
  | cons p d ih =>
    show List.Perm (insertSorted p (dictSortByKey d)) (p :: d)
    exact List.Perm.trans (insertSorted_perm p (dictSortByKey d)) (List.Perm.cons p ih)

theorem mem_dictKeys_dictSortByKey (d : Dict) (k : String) :
    k ∈ dictKeys (dictSortByKey d) ↔ k ∈ dictKeys d :=
  ((dictSortByKey_perm d).map Prod.fst).mem_iff

/- Reserved-name rename, from `influx_emit`:
for every key of the dict that is in the blacklist, rebind the value under
the key with a trailing underscore and delete the original key. -/

/-- what are bad names for tags that we should change (`influx_name_blacklist`). -/
def influx_name_blacklist : List String := ["time"]

/-- One iteration of the rename loop body in `influx_emit`. -/
def renameStep (acc : Dict) (k : String) : Dict :=
  if k ∈ influx_name_blacklist then
    match dictLookup acc k with
    | some v => dictErase (dictSet acc (k ++ "_") v) k
    | none => acc
  else acc

/-- The rename loop of `influx_emit`, applied to one dict:
iterates over a snapshot of the keys. -/
def influx_rename (d : Dict) : Dict :=
  (dictKeys d).foldl renameStep d

theorem renameStep_ne (acc : Dict) (k : String) (hk : k ≠ "time") :
    renameStep acc k = acc := by
  simp [renameStep, influx_name_blacklist, hk]

theorem renameStep_no_time (acc : Dict) (k : String)
    (h : dictLookup acc "time" = none) : renameStep acc k = acc := by
  by_cases hk : k = "time"
  · subst hk
    simp [renameStep, influx_name_blacklist, h]
  · simp [renameStep, influx_name_blacklist, hk]

theorem foldl_renameStep_no_time (l : List String) (acc : Dict)
    (h : dictLookup acc "time" = none) : l.foldl renameStep acc = acc := by
  induction l with
  | nil => rfl
  | cons k l ih =>
    rw [List.foldl_cons, renameStep_no_time acc k h]
    exact ih

theorem foldl_renameStep_time (l : List String) (acc : Dict) (v : Val)
    (h : dictLookup acc "time" = some v) (hmem : "time" ∈ l) :
    dictLookup (l.foldl renameStep acc) "time_" = some v ∧
    dictLookup (l.foldl renameStep acc) "time" = none := by
  induction l generalizing acc with
  | nil => simp at hmem
  | cons k l ih =>
    by_cases hk : k = "time"
    · subst hk
      rw [List.foldl_cons]
      have hstep : renameStep acc "time" = dictErase (dictSet acc "time_" v) "time" := by
        simp [renameStep, influx_name_blacklist, h]
      rw [hstep]
      have hnone : dictLookup (dictErase (dictSet acc "time_" v) "time") "time" = none :=
        dictLookup_dictErase_self _ "time"
      rw [foldl_renameStep_no_time l _ hnone]
      refine ⟨?_, hnone⟩
      rw [dictLookup_dictErase_ne _ "time" "time_" (by decide)]
      exact dictLookup_dictSet_self _ "time_" v
    · rw [List.foldl_cons, renameStep_ne acc k hk]
      have hmem2 : "time" ∈ l := by
        rcases List.mem_cons.mp hmem with h2 | h2
        · exact absurd h2.symm hk
        · exact h2
      exact ih acc h hmem2

/-- Main rename property: a dict holding the reserved key `"time"` is renamed
to hold `"time_"` with the original value, and loses `"time"`. -/
theorem influx_rename_time (d : Dict) (v : Val)
    (h : dictLookup d "time" = some v) :
    dictLookup (influx_rename d) "time_" = some v ∧
    dictLookup (influx_rename d) "time" = none :=
  foldl_renameStep_time (dictKeys d) d v h (mem_dictKeys_of_lookup d "time" v h)

/- Configuration adapter.  `Settings` records what the OctoPrint settings
getters return for each path used by the plugin (string getters return an
optional string, `get_int` an optional integer, the boolean getters a
boolean, `get_float` an optional rational).  The source field `prefix` is
called `pfx` here because of Lean surface-syntax restrictions. -/

structure Settings where
  host : Option String
  port : Option Int
  authenticate : Bool
  udp : Bool
  ssl : Bool
  verify_ssl : Bool
  database : Option String
  pfx : Option String
  username : Option String
  password : Option String
  interval : Option Rat
deriving DecidableEq, Repr

/-- The helper closure `add_arg_if_exists` in `influx_reconnect`: store the
setting value under `kwargsname` when it is truthy.  The getter result is
passed in as an optional `Val`. -/
def add_arg_if_exists (kwargs : Dict) (kwargsname : String) (v : Option Val) : Dict :=
  match v with
  | some v => if v.truthy then dictSet kwargs kwargsname v else kwargs
  | none => kwargs

/-- The kwargs built by `influx_reconnect` (lines 103-121 of the source) to
pass to `InfluxDBClient`. -/
def build_kwargs (s : Settings) : Dict :=
  let kwargs : Dict := dictEmpty
  let kwargs := add_arg_if_exists kwargs "host" (s.host.map Val.s)
  let kwargs := add_arg_if_exists kwargs "port" (s.port.map Val.i)
  let kwargs :=
    if s.authenticate then
      let kwargs := add_arg_if_exists kwargs "username" (s.username.map Val.s)
      add_arg_if_exists kwargs "password" (s.password.map Val.s)
    else kwargs
  let kwargs := add_arg_if_exists kwargs "database" (s.database.map Val.s)
  let kwargs := dictSet kwargs "ssl" (Val.b s.ssl)
  let kwargs := if s.ssl then dictSet kwargs "verify_ssl" (Val.b s.verify_ssl) else kwargs
  let kwargs := dictSet kwargs "use_udp" (Val.b s.udp)
  if ((dictLookup kwargs "use_udp").getD (Val.b false)).truthy then
    match dictLookup kwargs "port" with
    | some pv => dictErase (dictSet kwargs "udp_port" pv) "port"
    | none => kwargs
  else kwargs

/-- The measurement name prefix stored on a successful reconnect:
the `prefix` setting, or the empty string when it is unset
(`self._settings.get(['prefix']) or ''`). -/
def settingsPfx (s : Settings) : String :=
  match s.pfx with
  | some v => if v = "" then "" else v
  | none => ""

/-- The timer interval used by `influx_reconnect`: `get_float(['interval'], min=0)`
(modelled as returning nothing when the stored value is below the bound),
falling back to the default interval `1` when the result is falsy. -/
def settingsInterval (s : Settings) : Rat :=
  let interval : Option Rat :=
    match s.interval with
    | some v => if v < 0 then none else some v
    | none => none
  match interval with
  | some v => if v = 0 then 1 else v
  | none => 1

theorem dictLookup_add_arg_if_exists_ne (d : Dict) (kwargsname k : String)
    (v : Option Val) (h : k ≠ kwargsname) :
    dictLookup (add_arg_if_exists d kwargsname v) k = dictLookup d k := by
  match v with
  | none => rfl
  | some v =>
    by_cases ht : v.truthy <;> simp [add_arg_if_exists, ht, dictLookup_dictSet_ne d kwargsname k v h]

theorem dictLookup_add_arg_if_exists_truthy (d : Dict) (kwargsname : String)
    (v : Val) (h : v.truthy = true) :
    dictLookup (add_arg_if_exists d kwargsname (some v)) kwargsname = some v := by
  simp [add_arg_if_exists, h]

/-- Claim C6: with the datagram flag (`udp`) set and a nonzero configured
port, the connection kwargs built by `influx_reconnect` carry the port under
`udp_port` and carry no `port` key. -/
theorem build_kwargs_udp_port (s : Settings) (p : Int)
    (hudp : s.udp = true) (hport : s.port = some p) (hp : p ≠ 0) :
    dictLookup (build_kwargs s) "udp_port" = some (Val.i p) ∧
    dictLookup (build_kwargs s) "port" = none := by
  unfold build_kwargs
  rw [hport, hudp]
  simp only [Option.map_some']
  set k1 := add_arg_if_exists dictEmpty "host" (s.host.map Val.s) with hk1
  have l2 : dictLookup (add_arg_if_exists k1 "port" (some (Val.i p))) "port" = some (Val.i p) :=
    dictLookup_add_arg_if_exists_truthy k1 "port" (Val.i p) (by simp [Val.truthy, hp])
  set k2 := add_arg_if_exists k1 "port" (some (Val.i p)) with hk2
  set k3 :=
    (if s.authenticate then
      add_arg_if_exists (add_arg_if_exists k2 "username" (s.username.map Val.s))
        "password" (s.password.map Val.s)
     else k2) with hk3
  have l3 : dictLookup k3 "port" = some (Val.i p) := by
    rw [hk3]
    by_cases ha : s.authenticate <;> simp only [ha, if_true, if_false, Bool.false_eq_true]
    · rw [dictLookup_add_arg_if_exists_ne _ "password" "port" _ (by decide),
        dictLookup_add_arg_if_exists_ne _ "username" "port" _ (by decide)]
      exact l2
    · exact l2
  set k4 := add_arg_if_exists k3 "database" (s.database.map Val.s) with hk4
  have l4 : dictLookup k4 "port" = some (Val.i p) := by
    rw [hk4, dictLookup_add_arg_if_exists_ne _ "database" "port" _ (by decide)]
    exact l3
  set k5 := dictSet k4 "ssl" (Val.b s.ssl) with hk5
  have l5 : dictLookup k5 "port" = some (Val.i p) := by
    rw [hk5, dictLookup_dictSet_ne _ "ssl" "port" _ (by decide)]
    exact l4
  set k6 := (if s.ssl then dictSet k5 "verify_ssl" (Val.b s.verify_ssl) else k5) with hk6
  have l6 : dictLookup k6 "port" = some (Val.i p) := by
    rw [hk6]
    by_cases hs : s.ssl <;> simp only [hs, if_true, if_false, Bool.false_eq_true]
    · rw [dictLookup_dictSet_ne _ "verify_ssl" "port" _ (by decide)]
      exact l5
    · exact l5
  set k7 := dictSet k6 "use_udp" (Val.b true) with hk7
  have l7 : dictLookup k7 "port" = some (Val.i p) := by
    rw [hk7, dictLookup_dictSet_ne _ "use_udp" "port" _ (by decide)]
    exact l6
  have lu : dictLookup k7 "use_udp" = some (Val.b true) := by
    rw [hk7]
    exact dictLookup_dictSet_self _ "use_udp" _
  rw [lu]
  simp only [Option.getD_some, Val.truthy, if_true]
  rw [l7]
  constructor
  · rw [dictLookup_dictErase_ne _ "port" "udp_port" (by decide)]
    exact dictLookup_dictSet_self _ "udp_port" _
  · exact dictLookup_dictErase_self _ "port"

/-- Witness for claim C6 at a concrete configuration. -/
theorem build_kwargs_udp_port_witness :
    dictLookup
      (build_kwargs
        { host := some "influx.local", port := some 8089, authenticate := false,
          udp := true, ssl := false, verify_ssl := true, database := some "octoprint",
          pfx := some "", username := none, password := none, interval := some 1 })
      "udp_port" = some (Val.i 8089) ∧
    dictLookup
      (build_kwargs
        { host := some "influx.local", port := some 8089, authenticate := false,
          udp := true, ssl := false, verify_ssl := true, database := some "octoprint",
          pfx := some "", username := none, password := none, interval := some 1 })
      "port" = none :=
  build_kwargs_udp_port _ 8089 rfl rfl (by decide)

/- Connection manager.  The InfluxDB server is modelled by an `InfluxWorld`
fixing the outcome of each remote call: whether constructing the client and
pinging it succeeds, whether listing databases succeeds and what names it
returns, and whether create/switch succeed.  `influx_try_connect` returns
the optional client together with a trace of the externally visible calls,
so the theorems can speak about what was invoked. -/

structure InfluxWorld where
  ping_ok : Bool
  list_ok : Bool
  databases : List Val
  create_ok : Bool
  switch_ok : Bool
deriving DecidableEq, Repr

/-- A live `InfluxDBClient` handle: the kwargs it was opened with (database
name popped out) and the database it was switched to. -/
structure Client where
  kwargs : Dict
  database : Val
deriving DecidableEq, Repr

/-- Database-administration calls made by `influx_try_connect`. -/
inductive ConnEvent where
  | createDb (name : Val)
  | switchDb (name : Val)
deriving DecidableEq, Repr

/-- Trace of one `influx_try_connect` run: the connection parameters written
to the log (credential fields removed, items sorted), and the admin calls. -/
structure ConnectTrace where
  logged : Dict
  events : List ConnEvent
deriving DecidableEq, Repr

/-- `influx_try_connect` (source lines 46-83).  Every exception raised by the
client is caught and converted to an absent client, so the embedding is a
total function into `Option Client`. -/
def influx_try_connect (w : InfluxWorld) (kwargs0 : Dict) : Option Client × ConnectTrace :=
  let kwargs_safe := dictErase (dictErase kwargs0 "username") "password"
  let logged := dictSortByKey kwargs_safe
  let dbname := (dictLookup kwargs0 "database").getD (Val.s "octoprint")
  let kwargs := dictErase kwargs0 "database"
  if !w.ping_ok then
    (none, { logged := logged, events := [] })
  else if !w.list_ok then
    (none, { logged := logged, events := [] })
  else if dbname ∈ w.databases then
    if w.switch_ok then
      (some { kwargs := kwargs, database := dbname },
       { logged := logged, events := [.switchDb dbname] })
    else
      (none, { logged := logged, events := [.switchDb dbname] })
  else if !w.create_ok then
    (none, { logged := logged, events := [.createDb dbname] })
  else if w.switch_ok then
    (some { kwargs := kwargs, database := dbname },
     { logged := logged, events := [.createDb dbname, .switchDb dbname] })
  else
    (none, { logged := logged, events := [.createDb dbname, .switchDb dbname] })

theorem logged_no_credentials (kwargs0 : Dict) :
    dictLookup (dictSortByKey (dictErase (dictErase kwargs0 "username") "password"))
        "username" = none ∧
    dictLookup (dictSortByKey (dictErase (dictErase kwargs0 "username") "password"))
        "password" = none := by
  constructor
  · rw [dictLookup_eq_none_iff, mem_dictKeys_dictSortByKey]
    intro hmem
    exact dictKeys_dictErase_self kwargs0 "username"
      (mem_dictKeys_dictErase (dictErase kwargs0 "username") "password" "username" hmem)
  · rw [dictLookup_eq_none_iff, mem_dictKeys_dictSortByKey]
    intro hmem
    exact dictKeys_dictErase_self _ "password" hmem

theorem influx_try_connect_logged (w : InfluxWorld) (kwargs0 : Dict) :
    (influx_try_connect w kwargs0).2.logged =
      dictSortByKey (dictErase (dictErase kwargs0 "username") "password") := by
  simp only [influx_try_connect]
  split_ifs <;> rfl

/-- Claim C3: `influx_try_connect` never lets a client exception escape (it
is a total function into an optional client); the logged connection
parameters never contain the credential fields; every failing world yields
an absent client; and on full success it returns the opened client switched
to the configured database (defaulting to the name octoprint). -/
theorem influx_try_connect_never_raises (w : InfluxWorld) (kwargs0 : Dict) :
    dictLookup (influx_try_connect w kwargs0).2.logged "username" = none ∧
    dictLookup (influx_try_connect w kwargs0).2.logged "password" = none ∧
    ((w.ping_ok = false ∨ w.list_ok = false ∨ w.switch_ok = false ∨
        (((dictLookup kwargs0 "database").getD (Val.s "octoprint")) ∉ w.databases ∧
          w.create_ok = false)) →
      (influx_try_connect w kwargs0).1 = none) ∧
    (w.ping_ok = true → w.list_ok = true → w.switch_ok = true →
      (((dictLookup kwargs0 "database").getD (Val.s "octoprint")) ∉ w.databases →
        w.create_ok = true) →
      (influx_try_connect w kwargs0).1 =
        some { kwargs := dictErase kwargs0 "database",
               database := (dictLookup kwargs0 "database").getD (Val.s "octoprint") }) := by
  obtain ⟨hu, hpw⟩ := logged_no_credentials kwargs0
  rw [← influx_try_connect_logged w kwargs0] at hu hpw
  refine ⟨hu, hpw, ?_, ?_⟩
  · intro hfail
    obtain ⟨ping, listok, dbs, createok, switchok⟩ := w
    by_cases hmem : ((dictLookup kwargs0 "database").getD (Val.s "octoprint")) ∈ dbs <;>
      cases ping <;> cases listok <;> cases createok <;> cases switchok <;>
      simp_all [influx_try_connect]
  · intro hping hlist hswitch hcreate
    obtain ⟨ping, listok, dbs, createok, switchok⟩ := w
    subst hping
    subst hlist
    subst hswitch
    by_cases hmem : ((dictLookup kwargs0 "database").getD (Val.s "octoprint")) ∈ dbs
    · simp [influx_try_connect, hmem]
    · have hc : createok = true := hcreate hmem
      subst hc
      simp [influx_try_connect, hmem]

/-- Witness for claim C3: a world whose ping fails, with credentials in the
kwargs; the log omits them and the result is an absent client. -/
theorem influx_try_connect_never_raises_witness :
    dictLookup
      (influx_try_connect
        { ping_ok := false, list_ok := true, databases := [], create_ok := true,
          switch_ok := true }
        [("host", Val.s "h"), ("username", Val.s "u"), ("password", Val.s "p")]).2.logged
      "username" = none ∧
    (influx_try_connect
        { ping_ok := false, list_ok := true, databases := [], create_ok := true,
          switch_ok := true }
        [("host", Val.s "h"), ("username", Val.s "u"), ("password", Val.s "p")]).1 = none := by
  obtain ⟨h1, _, h3, _⟩ := influx_try_connect_never_raises
    { ping_ok := false, list_ok := true, databases := [], create_ok := true,
      switch_ok := true }
    [("host", Val.s "h"), ("username", Val.s "u"), ("password", Val.s "p")]
  exact ⟨h1, h3 (Or.inl rfl)⟩

/-- Claim C9: when ping and the database listing succeed, a missing
configured database name leads to exactly one create-database call (with
that name) and it happens before the switch; a present name leads to no
create-database call at all. -/
theorem influx_try_connect_create_once (w : InfluxWorld) (kwargs0 : Dict)
    (hping : w.ping_ok = true) (hlist : w.list_ok = true) :
    ((((dictLookup kwargs0 "database").getD (Val.s "octoprint")) ∉ w.databases) →
      (influx_try_connect w kwargs0).2.events =
        ConnEvent.createDb ((dictLookup kwargs0 "database").getD (Val.s "octoprint")) ::
          (if w.create_ok then
            [ConnEvent.switchDb ((dictLookup kwargs0 "database").getD (Val.s "octoprint"))]
           else [])) ∧
    ((((dictLookup kwargs0 "database").getD (Val.s "octoprint")) ∈ w.databases) →
      (influx_try_connect w kwargs0).2.events =
        [ConnEvent.switchDb ((dictLookup kwargs0 "database").getD (Val.s "octoprint"))]) := by
  obtain ⟨ping, listok, dbs, createok, switchok⟩ := w
  subst hping
  subst hlist
  constructor
  · intro hmem
    cases createok <;> cases switchok <;> simp [influx_try_connect, hmem]
  · intro hmem
    cases switchok <;> simp [influx_try_connect, hmem]

/-- Witness for claim C9: an empty listing and the default database name;
the trace is one create followed by one switch. -/
theorem influx_try_connect_create_once_witness :
    (influx_try_connect
        { ping_ok := true, list_ok := true, databases := [Val.s "other"],
          create_ok := true, switch_ok := true }
        [("host", Val.s "h")]).2.events =
      [ConnEvent.createDb (Val.s "octoprint"), ConnEvent.switchDb (Val.s "octoprint")] := by
  have h := (influx_try_connect_create_once
    { ping_ok := true, list_ok := true, databases := [Val.s "other"],
      create_ok := true, switch_ok := true }
    [("host", Val.s "h")] rfl rfl).1 (by decide)
  simpa using h

/- Plugin state and the reconnect operation. -/

/-- The mutable fields of `InfluxDBPlugin` that the core logic touches.
`influx_timer` models the `RepeatedTimer` handle as the interval it was
started with; `influx_pfx` is the source field `influx_prefix`. -/
structure PluginState where
  influx_timer : Option Rat
  influx_db : Option Client
  influx_last_reconnect : Option Rat
  influx_kwargs : Option Dict
  influx_pfx : String
  influx_common_tags : Dict
deriving DecidableEq, Repr

/-- `__init__`: empty state; the common tags hold the host tag computed once
from `platform.node()`, passed in here. -/
def influxInitState (hostname : String) : PluginState :=
  { influx_timer := none, influx_db := none, influx_last_reconnect := none,
    influx_kwargs := none, influx_pfx := "",
    influx_common_tags := [("host", Val.s hostname)] }

/-- The external context of one call: the settings store, the InfluxDB
server behaviour, whether a point write succeeds, the monotonic clock and
the UTC timestamp string `datetime.datetime.utcnow().isoformat()`. -/
structure Env where
  settings : Settings
  world : InfluxWorld
  write_ok : Bool
  now : Rat
  nowIso : String
deriving DecidableEq, Repr

/-- Trace of one `influx_reconnect` call. -/
structure ReconnectTrace where
  debounced : Bool
  cancelled_timer : Bool
  built : Option Dict
  try_connect_calls : Nat
  connect_trace : Option ConnectTrace
  timer_started : Bool
deriving DecidableEq, Repr

/-- The trace of a debounced (no-op) `influx_reconnect` call. -/
def reconnectNoop : ReconnectTrace :=
  { debounced := true, cancelled_timer := false, built := none,
    try_connect_calls := 0, connect_trace := none, timer_started := false }

/-- The debounce test of `influx_reconnect`:
`self.influx_last_reconnect is None or self.influx_last_reconnect + 10 < now`. -/
def reconnectDue (last : Option Rat) (now : Rat) : Bool :=
  match last with
  | none => true
  | some t => decide (t + 10 < now)

/-- Restart of the sampler timer at the end of `influx_reconnect`
(lines 129-135): started only when a client exists.  Returns the new state
and whether a timer was started. -/
def influx_start_timer (env : Env) (st : PluginState) : PluginState × Bool :=
  if st.influx_db.isSome then
    ({ st with influx_timer := some (settingsInterval env.settings) }, true)
  else (st, false)

/-- Body of `influx_reconnect` after the debounce guard (lines 96-135):
record the attempt time, cancel the timer, build kwargs, connect when the
client is absent or the parameters changed, and restart the timer. -/
def influx_reconnect_work (env : Env) (st : PluginState) : PluginState × ReconnectTrace :=
  let cancelled := st.influx_timer.isSome
  let st0 := { st with influx_last_reconnect := some env.now, influx_timer := none }
  let kwargs := build_kwargs env.settings
  if st0.influx_db = none ∨ st0.influx_kwargs ≠ some kwargs then
    let r := influx_try_connect env.world kwargs
    let st1 := { st0 with influx_db := r.1 }
    let st2 :=
      if r.1.isSome then
        { st1 with influx_kwargs := some kwargs, influx_pfx := settingsPfx env.settings }
      else st1
    ((influx_start_timer env st2).1,
     { debounced := false, cancelled_timer := cancelled, built := some kwargs,
       try_connect_calls := 1, connect_trace := some r.2,
       timer_started := (influx_start_timer env st2).2 })
  else
    ((influx_start_timer env st0).1,
     { debounced := false, cancelled_timer := cancelled, built := some kwargs,
       try_connect_calls := 0, connect_trace := none,
       timer_started := (influx_start_timer env st0).2 })

/-- `influx_reconnect` (source lines 91-135). -/
def influx_reconnect (env : Env) (force : Bool) (st : PluginState) :
    PluginState × ReconnectTrace :=
  if !(force || reconnectDue st.influx_last_reconnect env.now) then
    (st, reconnectNoop)
  else
    influx_reconnect_work env st

/-- `influx_connected` (source lines 85-89): reports whether a client handle
exists, reconnecting first when it does not.  Also returns the new state and
how many times `influx_reconnect` was invoked. -/
def influx_connected (env : Env) (st : PluginState) : Bool × PluginState × Nat :=
  match st.influx_db with
  | some _ => (true, st, 0)
  | none =>
    let st1 := (influx_reconnect env false st).1
    (st1.influx_db.isSome, st1, 1)

theorem influx_reconnect_debounced_eq (env : Env) (st : PluginState)
    (h : reconnectDue st.influx_last_reconnect env.now = false) :
    influx_reconnect env false st = (st, reconnectNoop) := by
  simp [influx_reconnect, h]

theorem influx_reconnect_work_last (env : Env) (st : PluginState) :
    ((influx_reconnect_work env st).1).influx_last_reconnect = some env.now := by
  simp only [influx_reconnect_work, influx_start_timer]
  split_ifs <;> rfl

theorem influx_reconnect_not_debounced (env : Env) (force : Bool) (st : PluginState)
    (h : (influx_reconnect env force st).2.debounced = false) :
    influx_reconnect env force st = influx_reconnect_work env st := by
  unfold influx_reconnect at h ⊢
  by_cases hc : (!(force || reconnectDue st.influx_last_reconnect env.now)) = true
  · rw [if_pos hc] at h
    simp [reconnectNoop] at h
  · rw [if_neg hc] at h ⊢

theorem influx_reconnect_last_of_not_debounced (env : Env) (force : Bool)
    (st : PluginState) (h : (influx_reconnect env force st).2.debounced = false) :
    ((influx_reconnect env force st).1).influx_last_reconnect = some env.now := by
  rw [influx_reconnect_not_debounced env force st h]
  exact influx_reconnect_work_last env st

/-- Claim C4: two non-forced reconnect calls, the second within 10 time
units of the first, perform the parameter-build/connect logic at most once;
when the first call did the work, the second is a pure no-op (no timer
cancel, no kwargs build, no connect). -/
theorem influx_reconnect_debounce_once (env1 env2 : Env) (st : PluginState)
    (h : env2.now ≤ env1.now + 10) :
    ¬((influx_reconnect env1 false st).2.debounced = false ∧
      (influx_reconnect env2 false (influx_reconnect env1 false st).1).2.debounced = false) ∧
    ((influx_reconnect env1 false st).2.debounced = false →
      influx_reconnect env2 false (influx_reconnect env1 false st).1 =
        ((influx_reconnect env1 false st).1, reconnectNoop)) := by
  have key : (influx_reconnect env1 false st).2.debounced = false →
      influx_reconnect env2 false (influx_reconnect env1 false st).1 =
        ((influx_reconnect env1 false st).1, reconnectNoop) := by
    intro h1
    have hlast := influx_reconnect_last_of_not_debounced env1 false st h1
    apply influx_reconnect_debounced_eq
    rw [hlast]
    simp only [reconnectDue, decide_eq_false_iff_not, not_lt]
    exact h
  refine ⟨?_, key⟩
  rintro ⟨h1, h2⟩
  rw [key h1] at h2
  simp [reconnectNoop] at h2

/-- Witness for claim C4: a fresh state; the first call works, the second
(5 time units later) is debounced. -/
theorem influx_reconnect_debounce_once_witness :
    (influx_reconnect
        { settings := { host := none, port := none, authenticate := false, udp := false,
                        ssl := false, verify_ssl := true, database := none, pfx := none,
                        username := none, password := none, interval := none },
          world := { ping_ok := false, list_ok := true, databases := [],
                     create_ok := true, switch_ok := true },
          write_ok := true, now := 5, nowIso := "t" }
        false
        ((influx_reconnect
          { settings := { host := none, port := none, authenticate := false, udp := false,
                          ssl := false, verify_ssl := true, database := none, pfx := none,
                          username := none, password := none, interval := none },
            world := { ping_ok := false, list_ok := true, databases := [],
                       create_ok := true, switch_ok := true },
            write_ok := true, now := 0, nowIso := "t" }
          false (influxInitState "h")).1)).2 = reconnectNoop := by
  have h := (influx_reconnect_debounce_once
    { settings := { host := none, port := none, authenticate := false, udp := false,
                    ssl := false, verify_ssl := true, database := none, pfx := none,
                    username := none, password := none, interval := none },
      world := { ping_ok := false, list_ok := true, databases := [],
                 create_ok := true, switch_ok := true },
      write_ok := true, now := 0, nowIso := "t" }
    { settings := { host := none, port := none, authenticate := false, udp := false,
                    ssl := false, verify_ssl := true, database := none, pfx := none,
                    username := none, password := none, interval := none },
      world := { ping_ok := false, list_ok := true, databases := [],
                 create_ok := true, switch_ok := true },
      write_ok := true, now := 5, nowIso := "t" }
    (influxInitState "h") (by norm_num)).2 (by decide)
  rw [h]

theorem influx_reconnect_work_kwargs_of_db_some (env : Env) (st : PluginState) (c : Client)
    (h : ((influx_reconnect_work env st).1).influx_db = some c) :
    ((influx_reconnect_work env st).1).influx_kwargs = some (build_kwargs env.settings) := by
  simp only [influx_reconnect_work, influx_start_timer] at h ⊢
  split_ifs at h ⊢ with h1 h2 h3 <;> first | rfl | simp_all

theorem influx_reconnect_work_skip (env : Env) (st : PluginState) (c : Client)
    (hdb : st.influx_db = some c)
    (hkw : st.influx_kwargs = some (build_kwargs env.settings)) :
    (influx_reconnect_work env st).2.try_connect_calls = 0 ∧
    ((influx_reconnect_work env st).1).influx_db = some c := by
  simp only [influx_reconnect_work, influx_start_timer]
  split_ifs with h1 h2 <;> simp_all

/-- Claim C5: two consecutive non-debounced reconnects that build identical
connection parameters do not reconnect twice: if a live client exists after
the first call, the second call performs no `influx_try_connect` call and
keeps the same client handle. -/
theorem influx_reconnect_idempotent_params (env1 env2 : Env) (f1 f2 : Bool)
    (st : PluginState) (c : Client)
    (hk : build_kwargs env1.settings = build_kwargs env2.settings)
    (h1 : (influx_reconnect env1 f1 st).2.debounced = false)
    (h2 : (influx_reconnect env2 f2 (influx_reconnect env1 f1 st).1).2.debounced = false)
    (hdb : ((influx_reconnect env1 f1 st).1).influx_db = some c) :
    (influx_reconnect env2 f2 (influx_reconnect env1 f1 st).1).2.try_connect_calls = 0 ∧
    ((influx_reconnect env2 f2 (influx_reconnect env1 f1 st).1).1).influx_db = some c := by
  have e1 := influx_reconnect_not_debounced env1 f1 st h1
  have hdb1 : ((influx_reconnect_work env1 st).1).influx_db = some c := by
    rw [← e1]
    exact hdb
  have hkw1 : ((influx_reconnect env1 f1 st).1).influx_kwargs =
      some (build_kwargs env2.settings) := by
    rw [e1, ← hk]
    exact influx_reconnect_work_kwargs_of_db_some env1 st c hdb1
  have e2 := influx_reconnect_not_debounced env2 f2 (influx_reconnect env1 f1 st).1 h2
  rw [e2]
  exact influx_reconnect_work_skip env2 (influx_reconnect env1 f1 st).1 c hdb hkw1

/-- Claim C10: a reconnect call that passes the debounce guard records the
call time as the last attempt even when the connection attempt fails, so
after a failed non-forced reconnect every non-forced reconnect within the
next 10 time units is a no-op (no connection attempt). -/
theorem influx_reconnect_records_time (env1 env2 : Env) (st : PluginState)
    (h1 : (influx_reconnect env1 false st).2.debounced = false)
    (hfail : ((influx_reconnect env1 false st).1).influx_db = none)
    (h2 : env2.now ≤ env1.now + 10) :
    ((influx_reconnect env1 false st).1).influx_last_reconnect = some env1.now ∧
    influx_reconnect env2 false (influx_reconnect env1 false st).1 =
      ((influx_reconnect env1 false st).1, reconnectNoop) := by
  have hlast := influx_reconnect_last_of_not_debounced env1 false st h1
  refine ⟨hlast, ?_⟩
  apply influx_reconnect_debounced_eq
  rw [hlast]
  simp only [reconnectDue, decide_eq_false_iff_not, not_lt]
  exact h2

/- Concrete data shared by the witnesses below. -/

/-- A default-like settings record (everything unset). -/
def wSettings : Settings :=
  { host := none, port := none, authenticate := false, udp := false, ssl := false,
    verify_ssl := true, database := none, pfx := none, username := none,
    password := none, interval := none }

/-- A reachable server holding no databases. -/
def wWorldUp : InfluxWorld :=
  { ping_ok := true, list_ok := true, databases := [], create_ok := true,
    switch_ok := true }

/-- An unreachable server. -/
def wWorldDown : InfluxWorld :=
  { ping_ok := false, list_ok := false, databases := [], create_ok := false,
    switch_ok := false }

/-- Environment against the reachable server. -/
def wEnvUp (now : Rat) : Env :=
  { settings := wSettings, world := wWorldUp, write_ok := true, now := now,
    nowIso := "t" }

/-- Environment against the unreachable server, with failing writes. -/
def wEnvDown (now : Rat) : Env :=
  { settings := wSettings, world := wWorldDown, write_ok := false, now := now,
    nowIso := "t" }

/-- The client the reachable-server environment connects to. -/
def wClient : Client :=
  { kwargs := [("ssl", Val.b false), ("use_udp", Val.b false)],
    database := Val.s "octoprint" }

/-- Witness for claim C5: a forced reconnect connects; a second forced
reconnect with the same settings reuses the client without reconnecting. -/
theorem influx_reconnect_idempotent_params_witness :
    (influx_reconnect (wEnvUp 20) true
        (influx_reconnect (wEnvUp 0) true (influxInitState "h")).1).2.try_connect_calls = 0 ∧
    ((influx_reconnect (wEnvUp 20) true
        (influx_reconnect (wEnvUp 0) true (influxInitState "h")).1).1).influx_db =
      some wClient :=
  influx_reconnect_idempotent_params (wEnvUp 0) (wEnvUp 20) true true
    (influxInitState "h") wClient rfl (by decide) (by decide) (by decide)

/-- Witness for claim C10: a failed reconnect at time 0 debounces a second
call at time 5. -/
theorem influx_reconnect_records_time_witness :
    ((influx_reconnect (wEnvDown 0) false (influxInitState "h")).1).influx_last_reconnect =
      some 0 ∧
    influx_reconnect (wEnvDown 5) false
        (influx_reconnect (wEnvDown 0) false (influxInitState "h")).1 =
      ((influx_reconnect (wEnvDown 0) false (influxInitState "h")).1, reconnectNoop) :=
  influx_reconnect_records_time (wEnvDown 0) (wEnvDown 5) (influxInitState "h")
    (by decide) (by decide) (by norm_num [wEnvDown])

/- Point builder and write path. -/

/-- A point handed to `write_points`. -/
structure Point where
  measurement : String
  tags : Dict
  time : String
  fields : Dict
deriving DecidableEq, Repr

/-- Trace of one `influx_emit` call: the point it constructed, whether the
write succeeded, and how many times `influx_reconnect` was invoked. -/
structure EmitTrace where
  point : Point
  wrote_ok : Bool
  reconnect_calls : Nat
deriving DecidableEq, Repr

/-- `influx_emit` (source lines 142-173): merge the common tags with the
caller tags, apply the reserved-name rename to tags and fields, stamp the
UTC time (Python appends the Z designator itself), build the point and try
to write it.  A write failure (including the attribute error raised when the
client handle is absent) is caught: the client handle is dropped and a
reconnect is attempted before returning. -/
def influx_emit (env : Env) (st : PluginState) (measurement : String)
    (fields : Dict) (extra_tags : Dict) : PluginState × EmitTrace :=
  let tags := st.influx_common_tags
  let tags := if dictIsEmpty extra_tags then tags else dictUpdate tags extra_tags
  let tags := influx_rename tags
  let fields2 := influx_rename fields
  let time := env.nowIso ++ "Z"
  let point : Point :=
    { measurement := st.influx_pfx ++ measurement, tags := tags, time := time,
      fields := fields2 }
  if st.influx_db.isSome && env.write_ok then
    (st, { point := point, wrote_ok := true, reconnect_calls := 0 })
  else
    let st1 := { st with influx_db := none }
    ((influx_reconnect env false st1).1,
     { point := point, wrote_ok := false, reconnect_calls := 1 })

theorem influx_emit_point (env : Env) (st : PluginState) (measurement : String)
    (fields : Dict) (extra_tags : Dict) :
    (influx_emit env st measurement fields extra_tags).2.point =
      { measurement := st.influx_pfx ++ measurement,
        tags := influx_rename
          (if dictIsEmpty extra_tags then st.influx_common_tags
           else dictUpdate st.influx_common_tags extra_tags),
        time := env.nowIso ++ "Z",
        fields := influx_rename fields } := by
  simp only [influx_emit]
  split_ifs <;> rfl

theorem influx_reconnect_db_none_of_down (env : Env) (force : Bool) (st : PluginState)
    (hping : env.world.ping_ok = false) (hdb : st.influx_db = none) :
    ((influx_reconnect env force st).1).influx_db = none := by
  unfold influx_reconnect
  split
  · exact hdb
  · have hconn : (influx_try_connect env.world (build_kwargs env.settings)).1 = none := by
      unfold influx_try_connect
      simp [hping]
    simp only [influx_reconnect_work, influx_start_timer]
    split_ifs <;> simp_all

/-- Claim C1: a failing write inside `influx_emit` does not escape (the
embedding is total); the client handle is dropped and a reconnect is
invoked once before the call returns; with the server unreachable the
handle stays absent, and a subsequent `influx_connected` call then invokes
`influx_reconnect` exactly once. -/
theorem influx_emit_write_failure_recovers (env : Env) (st : PluginState) (c : Client)
    (measurement : String) (fields : Dict) (extra_tags : Dict)
    (hdb : st.influx_db = some c) (hw : env.write_ok = false)
    (hping : env.world.ping_ok = false) :
    (influx_emit env st measurement fields extra_tags).2.wrote_ok = false ∧
    (influx_emit env st measurement fields extra_tags).2.reconnect_calls = 1 ∧
    ((influx_emit env st measurement fields extra_tags).1).influx_db = none ∧
    (influx_connected env (influx_emit env st measurement fields extra_tags).1).2.2 = 1 := by
  have hbranch : (st.influx_db.isSome && env.write_ok) = false := by
    rw [hw, Bool.and_false]
  have hdrop : ((influx_emit env st measurement fields extra_tags).1).influx_db = none := by
    simp only [influx_emit, hbranch, Bool.false_eq_true, if_false]
    exact influx_reconnect_db_none_of_down env false _ hping rfl
  refine ⟨?_, ?_, hdrop, ?_⟩
  · simp only [influx_emit, hbranch, Bool.false_eq_true, if_false]
  · simp only [influx_emit, hbranch, Bool.false_eq_true, if_false]
  · rw [influx_connected]
    split
    · rename_i c2 heq
      rw [hdrop] at heq
      exact Option.noConfusion heq
    · rfl

/-- Witness for claim C1: a live handle, a failed write against a downed
server; the handle ends absent and the next connectivity check reconnects
once. -/
theorem influx_emit_write_failure_recovers_witness :
    (influx_emit (wEnvDown 0)
        { influx_timer := none, influx_db := some wClient, influx_last_reconnect := none,
          influx_kwargs := none, influx_pfx := "", influx_common_tags := [("host", Val.s "h")] }
        "temperature" [("tool0_actual", Val.f 200)] []).2.wrote_ok = false ∧
    (influx_emit (wEnvDown 0)
        { influx_timer := none, influx_db := some wClient, influx_last_reconnect := none,
          influx_kwargs := none, influx_pfx := "", influx_common_tags := [("host", Val.s "h")] }
        "temperature" [("tool0_actual", Val.f 200)] []).2.reconnect_calls = 1 ∧
    ((influx_emit (wEnvDown 0)
        { influx_timer := none, influx_db := some wClient, influx_last_reconnect := none,
          influx_kwargs := none, influx_pfx := "", influx_common_tags := [("host", Val.s "h")] }
        "temperature" [("tool0_actual", Val.f 200)] []).1).influx_db = none ∧
    (influx_connected (wEnvDown 0)
        (influx_emit (wEnvDown 0)
          { influx_timer := none, influx_db := some wClient, influx_last_reconnect := none,
            influx_kwargs := none, influx_pfx := "", influx_common_tags := [("host", Val.s "h")] }
          "temperature" [("tool0_actual", Val.f 200)] []).1).2.2 = 1 :=
  influx_emit_write_failure_recovers (wEnvDown 0)
    { influx_timer := none, influx_db := some wClient, influx_last_reconnect := none,
      influx_kwargs := none, influx_pfx := "", influx_common_tags := [("host", Val.s "h")] }
    wClient "temperature" [("tool0_actual", Val.f 200)] [] rfl rfl rfl

/-- Claim C2: when the caller tags and the fields both contain the reserved
key time, the constructed point binds time with a trailing underscore to
the original value in the corresponding map and drops the original key. -/
theorem influx_emit_renames_reserved_time (env : Env) (st : PluginState)
    (measurement : String) (fields : Dict) (extra_tags : Dict) (tv fv : Val)
    (htags : dictLookup extra_tags "time" = some tv)
    (hnodup : (dictKeys extra_tags).Nodup)
    (hfields : dictLookup fields "time" = some fv) :
    dictLookup (influx_emit env st measurement fields extra_tags).2.point.tags
        "time_" = some tv ∧
    dictLookup (influx_emit env st measurement fields extra_tags).2.point.tags
        "time" = none ∧
    dictLookup (influx_emit env st measurement fields extra_tags).2.point.fields
        "time_" = some fv ∧
    dictLookup (influx_emit env st measurement fields extra_tags).2.point.fields
        "time" = none := by
  rw [influx_emit_point]
  have hne : dictIsEmpty extra_tags = false := by
    cases extra_tags with
    | nil => simp at htags
    | cons p d => rfl
  rw [hne]
  simp only [Bool.false_eq_true, if_false]
  have hmerged : dictLookup (dictUpdate st.influx_common_tags extra_tags) "time" = some tv :=
    dictLookup_dictUpdate_of_nodup extra_tags st.influx_common_tags "time" tv hnodup htags
  obtain ⟨t1, t2⟩ := influx_rename_time _ tv hmerged
  obtain ⟨f1, f2⟩ := influx_rename_time _ fv hfields
  exact ⟨t1, t2, f1, f2⟩

/-- Witness for claim C2 at concrete tag and field maps. -/
theorem influx_emit_renames_reserved_time_witness :
    dictLookup (influx_emit (wEnvUp 0) (influxInitState "h") "events"
        [("time", Val.i 7)] [("time", Val.s "payload")]).2.point.tags "time_" =
      some (Val.s "payload") ∧
    dictLookup (influx_emit (wEnvUp 0) (influxInitState "h") "events"
        [("time", Val.i 7)] [("time", Val.s "payload")]).2.point.tags "time" = none ∧
    dictLookup (influx_emit (wEnvUp 0) (influxInitState "h") "events"
        [("time", Val.i 7)] [("time", Val.s "payload")]).2.point.fields "time_" =
      some (Val.i 7) ∧
    dictLookup (influx_emit (wEnvUp 0) (influxInitState "h") "events"
        [("time", Val.i 7)] [("time", Val.s "payload")]).2.point.fields "time" = none :=
  influx_emit_renames_reserved_time (wEnvUp 0) (influxInitState "h") "events"
    [("time", Val.i 7)] [("time", Val.s "payload")] (Val.s "payload") (Val.i 7)
    rfl (by decide) rfl

/- The printer data source, as consumed by `influx_gather` and `on_event`. -/

/-- The progress block of `get_current_data()`; `none` stands for an absent
or falsy (empty) progress dict. -/
structure ProgressData where
  completion : Option Val
  filepos : Option Val
  printTime : Option Val
  printTimeLeft : Option Val
  printTimeLeftOrigin : Option Val
deriving DecidableEq, Repr

/-- The parts of `get_current_data()` the plugin reads. -/
structure CurrentData where
  progress : Option ProgressData
  currentZ : Option Val
  state_text : Option Val
deriving DecidableEq, Repr

/-- The file sub-dict of `get_current_job()`. -/
structure JobFile where
  name : Option Val
  date : Option Val
  display : Option Val
  size : Option Val
deriving DecidableEq, Repr

/-- One filament entry of the job. -/
structure FilamentVal where
  length : Option Val
  volume : Option Val
deriving DecidableEq, Repr

/-- The parts of `get_current_job()` the plugin reads. -/
structure Job where
  file : Option JobFile
  averagePrintTime : Option Val
  estimatedPrintTime : Option Val
  lastPrintTime : Option Val
  filament : List (String × FilamentVal)
  user : Option Val
deriving DecidableEq, Repr

/-- The printer interface consumed by the plugin. -/
structure Printer where
  is_operational : Bool
  current_temperatures : List (String × List (String × Val))
  current_data : CurrentData
  current_job : Job
deriving DecidableEq, Repr

/-- The local helper `add_to(d, k, x)`: store `x` under `k` when truthy. -/
def addTo (d : Dict) (k : String) (x : Option Val) : Dict :=
  match x with
  | some v => if v.truthy then dictSet d k v else d
  | none => d

/-- Python 3 `round`: round half to even, modelled on rationals. -/
def pyRound (q : Rat) : Int :=
  let fl := Int.floor q
  let fr := q - fl
  if fr < (1 : Rat) / 2 then fl
  else if (1 : Rat) / 2 < fr then fl + 1
  else if fl % 2 = 0 then fl else fl + 1

/-- `int(round(x))` on a `Val` (numbers only; other values pass through). -/
def valRound : Val → Val
  | .f q => .i (pyRound q)
  | .i n => .i n
  | v => v

/-- The temperature flattening loop of `influx_gather`:
`fields[sensor + '_' + subfield] = temps[sensor][subfield]`. -/
def gatherTempFields (temps : List (String × List (String × Val))) : Dict :=
  temps.foldl
    (fun acc sensor =>
      sensor.2.foldl (fun acc2 sub => dictSet acc2 (sensor.1 ++ "_" ++ sub.1) sub.2) acc)
    dictEmpty

/-- `influx_gather` (source lines 175-216): no-op unless connected and the
printer is operational; emits a temperature point when there are readings,
then a progress point when a progress block is present and yields fields.
Returns the new state and the trace of the emissions attempted. -/
def influx_gather (env : Env) (p : Printer) (st : PluginState) :
    PluginState × List EmitTrace :=
  let conn := influx_connected env st
  if !conn.1 then (conn.2.1, [])
  else if !p.is_operational then (conn.2.1, [])
  else
    let st1 := conn.2.1
    let temps := p.current_temperatures
    let r1 :=
      if temps.isEmpty then (st1, [])
      else
        let e := influx_emit env st1 "temperature" (gatherTempFields temps) dictEmpty
        (e.1, [e.2])
    let data := p.current_data
    match data.progress with
    | none => r1
    | some progress =>
      let fields := addTo dictEmpty "current_z" data.currentZ
      let pct :=
        match progress.completion with
        | some v => if v.truthy then some (valRound v) else some v
        | none => none
      let fields := addTo fields "pct" pct
      let fields := addTo fields "completion" progress.completion
      let fields := addTo fields "filepos" progress.filepos
      let fields := addTo fields "print_time" progress.printTime
      let fields := addTo fields "print_time_left" progress.printTimeLeft
      let fields := addTo fields "print_time_left_origin" progress.printTimeLeftOrigin
      if fields.isEmpty then r1
      else
        let e := influx_emit env r1.1 "progress" fields dictEmpty
        (e.1, r1.2 ++ [e.2])

/-- Claim C8: on a connected state and an operational printer reporting
tool0 actual/target temperatures and no progress block, `influx_gather`
writes exactly one point: prefixed measurement temperature, the flattened
temperature fields, the common host tag, and a successful write. -/
theorem influx_gather_temperature_point (env : Env) (st : PluginState) (c : Client)
    (p : Printer) (hostname : String)
    (hdb : st.influx_db = some c) (hw : env.write_ok = true)
    (hop : p.is_operational = true)
    (htemps : p.current_temperatures =
      [("tool0", [("actual", Val.f (2001 / 10)), ("target", Val.f 210)])])
    (hprog : p.current_data.progress = none)
    (htags : st.influx_common_tags = [("host", Val.s hostname)]) :
    influx_gather env p st =
      (st,
       [{ point :=
            { measurement := st.influx_pfx ++ "temperature",
              tags := [("host", Val.s hostname)],
              time := env.nowIso ++ "Z",
              fields := [("tool0_actual", Val.f (2001 / 10)),
                         ("tool0_target", Val.f 210)] },
          wrote_ok := true, reconnect_calls := 0 }]) := by
  have hconn : influx_connected env st = (true, st, 0) := by
    rw [influx_connected, hdb]
  have hfields : gatherTempFields p.current_temperatures =
      [("tool0_actual", Val.f (2001 / 10)), ("tool0_target", Val.f 210)] := by
    rw [htemps]
    rfl
  have hemit : influx_emit env st "temperature"
      (gatherTempFields p.current_temperatures) dictEmpty =
      (st,
       { point :=
           { measurement := st.influx_pfx ++ "temperature",
             tags := [("host", Val.s hostname)],
             time := env.nowIso ++ "Z",
             fields := [("tool0_actual", Val.f (2001 / 10)),
                        ("tool0_target", Val.f 210)] },
         wrote_ok := true, reconnect_calls := 0 }) := by
    rw [hfields]
    simp only [influx_emit, htags, hdb, hw, Option.isSome_some, Bool.and_self, if_true]
    rfl
  simp only [influx_gather, hconn, hop, htemps, hprog, Bool.not_true, Bool.false_eq_true,
    if_false, List.isEmpty_cons]
  rw [← htemps, hemit]

/-- Witness for claim C8 at a fully concrete state and printer. -/
theorem influx_gather_temperature_point_witness :
    influx_gather (wEnvUp 0)
      { is_operational := true,
        current_temperatures :=
          [("tool0", [("actual", Val.f (2001 / 10)), ("target", Val.f 210)])],
        current_data := { progress := none, currentZ := none, state_text := none },
        current_job := { file := none, averagePrintTime := none,
                         estimatedPrintTime := none, lastPrintTime := none,
                         filament := [], user := none } }
      { influx_timer := none, influx_db := some wClient, influx_last_reconnect := none,
        influx_kwargs := none, influx_pfx := "", influx_common_tags := [("host", Val.s "h")] } =
    ({ influx_timer := none, influx_db := some wClient, influx_last_reconnect := none,
       influx_kwargs := none, influx_pfx := "", influx_common_tags := [("host", Val.s "h")] },
     [{ point :=
          { measurement := "" ++ "temperature",
            tags := [("host", Val.s "h")],
            time := "t" ++ "Z",
            fields := [("tool0_actual", Val.f (2001 / 10)),
                       ("tool0_target", Val.f 210)] },
        wrote_ok := true, reconnect_calls := 0 }]) :=
  influx_gather_temperature_point (wEnvUp 0)
    { influx_timer := none, influx_db := some wClient, influx_last_reconnect := none,
      influx_kwargs := none, influx_pfx := "", influx_common_tags := [("host", Val.s "h")] }
    wClient
    { is_operational := true,
      current_temperatures :=
        [("tool0", [("actual", Val.f (2001 / 10)), ("target", Val.f 210)])],
      current_data := { progress := none, currentZ := none, state_text := none },
      current_job := { file := none, averagePrintTime := none,
                       estimatedPrintTime := none, lastPrintTime := none,
                       filament := [], user := none } }
    "h" rfl rfl rfl rfl rfl rfl

/-- `on_event` (source lines 220-253): when connected, every event first
produces an events point whose single field is the event name and whose
extra tags are the raw event payload (the payload then passes through
`influx_emit` and its reserved-name rename, like every other point); then,
when the printer is operational and a job file is loaded, a state point
with the job metadata. -/
def on_event (env : Env) (p : Printer) (st : PluginState) (event : String)
    (payload : Dict) : PluginState × List EmitTrace :=
  let conn := influx_connected env st
  if !conn.1 then (conn.2.1, [])
  else
    let st1 := conn.2.1
    let e0 := influx_emit env st1 "events" [("type", Val.s event)] payload
    if !p.is_operational then (e0.1, [e0.2])
    else
      let job := p.current_job
      let data := p.current_data
      match job.file with
      | none => (e0.1, [e0.2])
      | some jobfile =>
        if !(match jobfile.name with | some v => v.truthy | none => false) then
          (e0.1, [e0.2])
        else
          let fields := addTo dictEmpty "state" data.state_text
          let fields := addTo fields "average_print_time" job.averagePrintTime
          let fields := addTo fields "estimated_print_time" job.estimatedPrintTime
          let fields := job.filament.foldl
            (fun acc fil =>
              addTo (addTo acc ("filament_" ++ fil.1 ++ "_length") fil.2.length)
                ("filament_" ++ fil.1 ++ "_volume") fil.2.volume)
            fields
          let fields := addTo fields "file_date" jobfile.date
          let fields := addTo fields "file" jobfile.display
          let fields := addTo fields "file_size" jobfile.size
          let fields := addTo fields "last_print_time" job.lastPrintTime
          let fields := addTo fields "user" job.user
          let e1 := influx_emit env e0.1 "state" fields dictEmpty
          (e1.1, [e0.2, e1.2])

/-- Counterexample to claim C7: a connected state, an event whose payload
carries the reserved key time.  The claim asserts the events point uses the
raw payload as tags with no rename applied, i.e. the key time would survive;
in the code the payload goes through the rename in `influx_emit`, so the
constructed point's tags lack time and carry its value under the
underscored key instead. -/
theorem on_event_raw_payload_cex :
    ((on_event (wEnvUp 0)
        { is_operational := false, current_temperatures := [],
          current_data := { progress := none, currentZ := none, state_text := none },
          current_job := { file := none, averagePrintTime := none,
                           estimatedPrintTime := none, lastPrintTime := none,
                           filament := [], user := none } }
        { influx_timer := none, influx_db := some wClient, influx_last_reconnect := none,
          influx_kwargs := none, influx_pfx := "",
          influx_common_tags := [("host", Val.s "h")] }
        "PrintStarted" [("time", Val.s "boom")]).2.map
      (fun e => dictLookup e.point.tags "time")) = [none] ∧
    ((on_event (wEnvUp 0)
        { is_operational := false, current_temperatures := [],
          current_data := { progress := none, currentZ := none, state_text := none },
          current_job := { file := none, averagePrintTime := none,
                           estimatedPrintTime := none, lastPrintTime := none,
                           filament := [], user := none } }
        { influx_timer := none, influx_db := some wClient, influx_last_reconnect := none,
          influx_kwargs := none, influx_pfx := "",
          influx_common_tags := [("host", Val.s "h")] }
        "PrintStarted" [("time", Val.s "boom")]).2.map
      (fun e => dictLookup e.point.tags "time_")) = [some (Val.s "boom")] := by
  constructor <;> rfl

/-- Claim C7 as amended: while connected, every event (no allow-list) first
produces one events point with field type bound to the event name and with
the payload merged over the common tags, the reserved-name rename being
applied to those tags exactly as for every other point. -/
theorem on_event_events_point (env : Env) (p : Printer) (st : PluginState)
    (event : String) (payload : Dict) (c : Client)
    (hdb : st.influx_db = some c) :
    ((on_event env p st event payload).2.map (fun e => e.point)).head? =
      some
        { measurement := st.influx_pfx ++ "events",
          tags := influx_rename
            (if dictIsEmpty payload then st.influx_common_tags
             else dictUpdate st.influx_common_tags payload),
          time := env.nowIso ++ "Z",
          fields := [("type", Val.s event)] } := by
  have hconn : influx_connected env st = (true, st, 0) := by
    rw [influx_connected, hdb]
  have hf : influx_rename [("type", Val.s event)] = [("type", Val.s event)] := by
    show List.foldl renameStep _ (dictKeys [("type", Val.s event)]) = _
    rw [show dictKeys [("type", Val.s event)] = ["type"] from rfl,
      List.foldl_cons, renameStep_ne _ "type" (by decide), List.foldl_nil]
  have hpoint := influx_emit_point env st "events" [("type", Val.s event)] payload
  rw [hf] at hpoint
  simp only [on_event, hconn, Bool.not_true, Bool.false_eq_true, if_false]
  set q : Point :=
    { measurement := st.influx_pfx ++ "events",
      tags := influx_rename
        (if dictIsEmpty payload then st.influx_common_tags
         else dictUpdate st.influx_common_tags payload),
      time := env.nowIso ++ "Z",
      fields := [("type", Val.s event)] } with hq
  split
  · simp only [List.map_cons, List.head?_cons]
    rw [hpoint]
  · split
    · simp only [List.map_cons, List.head?_cons]
      rw [hpoint]
    · split
      · simp only [List.map_cons, List.head?_cons]
        rw [hpoint]
      · simp only [List.map_cons, List.head?_cons]
        rw [hpoint]

/-- Witness for the amended claim C7 at a concrete event and payload. -/
theorem on_event_events_point_witness :
    ((on_event (wEnvUp 0)
        { is_operational := true, current_temperatures := [],
          current_data := { progress := none, currentZ := none, state_text := none },
          current_job := { file := none, averagePrintTime := none,
                           estimatedPrintTime := none, lastPrintTime := none,
                           filament := [], user := none } }
        { influx_timer := none, influx_db := some wClient, influx_last_reconnect := none,
          influx_kwargs := none, influx_pfx := "",
          influx_common_tags := [("host", Val.s "h")] }
        "PrintDone" [("origin", Val.s "local")]).2.map (fun e => e.point)).head? =
      some
        { measurement := "" ++ "events",
          tags := influx_rename
            (dictUpdate [("host", Val.s "h")] [("origin", Val.s "local")]),
          time := "t" ++ "Z",
          fields := [("type", Val.s "PrintDone")] } :=
  on_event_events_point (wEnvUp 0)
    { is_operational := true, current_temperatures := [],
      current_data := { progress := none, currentZ := none, state_text := none },
      current_job := { file := none, averagePrintTime := none,
                       estimatedPrintTime := none, lastPrintTime := none,
                       filament := [], user := none } }
    { influx_timer := none, influx_db := some wClient, influx_last_reconnect := none,
      influx_kwargs := none, influx_pfx := "",
      influx_common_tags := [("host", Val.s "h")] }
    "PrintDone" [("origin", Val.s "local")] wClient rfl

end InfluxPlugin
